import Mathlib

/-!
Verification of the pducky repository's DuckDB FFI header
(`src/lib/duckdb.h`) against its natural-language specification.

The repository contains a single declaration-only C header. Part 1 below
embeds that header's declaration surface (the type enumeration, the
two-value status enumeration, and every function prototype with its
return type and parameter list) as Lean data, transcribed line by line
from the source. Part 2 models the minimal engine the specification
describes behind this surface (columnar result sets, typed accessors
with bounds/null/coercion checking, and a handle-lifecycle state
machine); those definitions are marked `Modelled from the spec:` since
no implementation exists in the repository.
-/

namespace Pducky

/-! ## Part 1: the header's declaration surface, embedded from the source -/

/-- The `DUCKDB_TYPE` enumeration, transcribed from `duckdb.h` lines 9-49:
one constructor per enumerator, in source order. -/
inductive DUCKDB_TYPE where
  | DUCKDB_TYPE_INVALID
  | DUCKDB_TYPE_BOOLEAN
  | DUCKDB_TYPE_TINYINT
  | DUCKDB_TYPE_SMALLINT
  | DUCKDB_TYPE_INTEGER
  | DUCKDB_TYPE_BIGINT
  | DUCKDB_TYPE_UTINYINT
  | DUCKDB_TYPE_USMALLINT
  | DUCKDB_TYPE_UINTEGER
  | DUCKDB_TYPE_UBIGINT
  | DUCKDB_TYPE_FLOAT
  | DUCKDB_TYPE_DOUBLE
  | DUCKDB_TYPE_TIMESTAMP
  | DUCKDB_TYPE_DATE
  | DUCKDB_TYPE_TIME
  | DUCKDB_TYPE_INTERVAL
  | DUCKDB_TYPE_HUGEINT
  | DUCKDB_TYPE_UHUGEINT
  | DUCKDB_TYPE_VARCHAR
  | DUCKDB_TYPE_BLOB
  | DUCKDB_TYPE_DECIMAL
  | DUCKDB_TYPE_TIMESTAMP_S
  | DUCKDB_TYPE_TIMESTAMP_MS
  | DUCKDB_TYPE_TIMESTAMP_NS
  | DUCKDB_TYPE_ENUM
  | DUCKDB_TYPE_LIST
  | DUCKDB_TYPE_STRUCT
  | DUCKDB_TYPE_MAP
  | DUCKDB_TYPE_ARRAY
  | DUCKDB_TYPE_UUID
  | DUCKDB_TYPE_UNION
  | DUCKDB_TYPE_BIT
  | DUCKDB_TYPE_TIME_TZ
  | DUCKDB_TYPE_TIMESTAMP_TZ
  | DUCKDB_TYPE_ANY
  | DUCKDB_TYPE_VARINT
  | DUCKDB_TYPE_SQLNULL
  | DUCKDB_TYPE_STRING_LITERAL
  | DUCKDB_TYPE_INTEGER_LITERAL
  deriving DecidableEq

/-- The integer code assigned to each enumerator in the header
(`DUCKDB_TYPE_INVALID = 0`, ..., `DUCKDB_TYPE_INTEGER_LITERAL = 38`);
note the out-of-order codes `UHUGEINT = 32` and `ARRAY = 33`, copied
exactly from the source. -/
def DUCKDB_TYPE.code : DUCKDB_TYPE → Nat
  | .DUCKDB_TYPE_INVALID => 0
  | .DUCKDB_TYPE_BOOLEAN => 1
  | .DUCKDB_TYPE_TINYINT => 2
  | .DUCKDB_TYPE_SMALLINT => 3
  | .DUCKDB_TYPE_INTEGER => 4
  | .DUCKDB_TYPE_BIGINT => 5
  | .DUCKDB_TYPE_UTINYINT => 6
  | .DUCKDB_TYPE_USMALLINT => 7
  | .DUCKDB_TYPE_UINTEGER => 8
  | .DUCKDB_TYPE_UBIGINT => 9
  | .DUCKDB_TYPE_FLOAT => 10
  | .DUCKDB_TYPE_DOUBLE => 11
  | .DUCKDB_TYPE_TIMESTAMP => 12
  | .DUCKDB_TYPE_DATE => 13
  | .DUCKDB_TYPE_TIME => 14
  | .DUCKDB_TYPE_INTERVAL => 15
  | .DUCKDB_TYPE_HUGEINT => 16
  | .DUCKDB_TYPE_UHUGEINT => 32
  | .DUCKDB_TYPE_VARCHAR => 17
  | .DUCKDB_TYPE_BLOB => 18
  | .DUCKDB_TYPE_DECIMAL => 19
  | .DUCKDB_TYPE_TIMESTAMP_S => 20
  | .DUCKDB_TYPE_TIMESTAMP_MS => 21
  | .DUCKDB_TYPE_TIMESTAMP_NS => 22
  | .DUCKDB_TYPE_ENUM => 23
  | .DUCKDB_TYPE_LIST => 24
  | .DUCKDB_TYPE_STRUCT => 25
  | .DUCKDB_TYPE_MAP => 26
  | .DUCKDB_TYPE_ARRAY => 33
  | .DUCKDB_TYPE_UUID => 27
  | .DUCKDB_TYPE_UNION => 28
  | .DUCKDB_TYPE_BIT => 29
  | .DUCKDB_TYPE_TIME_TZ => 30
  | .DUCKDB_TYPE_TIMESTAMP_TZ => 31
  | .DUCKDB_TYPE_ANY => 34
  | .DUCKDB_TYPE_VARINT => 35
  | .DUCKDB_TYPE_SQLNULL => 36
  | .DUCKDB_TYPE_STRING_LITERAL => 37
  | .DUCKDB_TYPE_INTEGER_LITERAL => 38

/-- All enumerators of `DUCKDB_TYPE`, in source order. -/
def DUCKDB_TYPE_all : List DUCKDB_TYPE :=
  [.DUCKDB_TYPE_INVALID, .DUCKDB_TYPE_BOOLEAN, .DUCKDB_TYPE_TINYINT,
   .DUCKDB_TYPE_SMALLINT, .DUCKDB_TYPE_INTEGER, .DUCKDB_TYPE_BIGINT,
   .DUCKDB_TYPE_UTINYINT, .DUCKDB_TYPE_USMALLINT, .DUCKDB_TYPE_UINTEGER,
   .DUCKDB_TYPE_UBIGINT, .DUCKDB_TYPE_FLOAT, .DUCKDB_TYPE_DOUBLE,
   .DUCKDB_TYPE_TIMESTAMP, .DUCKDB_TYPE_DATE, .DUCKDB_TYPE_TIME,
   .DUCKDB_TYPE_INTERVAL, .DUCKDB_TYPE_HUGEINT, .DUCKDB_TYPE_UHUGEINT,
   .DUCKDB_TYPE_VARCHAR, .DUCKDB_TYPE_BLOB, .DUCKDB_TYPE_DECIMAL,
   .DUCKDB_TYPE_TIMESTAMP_S, .DUCKDB_TYPE_TIMESTAMP_MS,
   .DUCKDB_TYPE_TIMESTAMP_NS, .DUCKDB_TYPE_ENUM, .DUCKDB_TYPE_LIST,
   .DUCKDB_TYPE_STRUCT, .DUCKDB_TYPE_MAP, .DUCKDB_TYPE_ARRAY,
   .DUCKDB_TYPE_UUID, .DUCKDB_TYPE_UNION, .DUCKDB_TYPE_BIT,
   .DUCKDB_TYPE_TIME_TZ, .DUCKDB_TYPE_TIMESTAMP_TZ, .DUCKDB_TYPE_ANY,
   .DUCKDB_TYPE_VARINT, .DUCKDB_TYPE_SQLNULL, .DUCKDB_TYPE_STRING_LITERAL,
   .DUCKDB_TYPE_INTEGER_LITERAL]

/-- The `duckdb_state` enumeration from `duckdb.h` lines 51-54:
exactly two values, success and error. -/
inductive duckdb_state where
  | DuckDBSuccess
  | DuckDBError
  deriving DecidableEq

/-- The integer code of each `duckdb_state` value
(`DuckDBSuccess = 0`, `DuckDBError = 1`). -/
def duckdb_state.code : duckdb_state → Nat
  | .DuckDBSuccess => 0
  | .DuckDBError => 1

/-- C type expressions appearing in the header's prototypes, one
constructor per distinct type syntax used in `duckdb.h`. -/
inductive CType where
  | void
  | boolC
  | int8_t
  | int16_t
  | int32_t
  | int64_t
  | floatC
  | doubleC
  | idx_t_c
  | duckdb_state_c
  | duckdb_type_c
  | constCharPtr
  | charPtr
  | charPtrPtr
  | voidPtr
  | duckdb_database_c
  | duckdb_database_ptr
  | duckdb_connection_c
  | duckdb_connection_ptr
  | duckdb_config_c
  | duckdb_result_ptr
  deriving DecidableEq

/-- A formal parameter of a header prototype: its name, C type, and
whether it is an out-parameter (a pointer the callee fills with a
produced handle, result, or error string: `out_database`,
`out_connection`, `out_result`, `out_error` in the source). -/
structure CParam where
  pname : String
  ptype : CType
  isOut : Bool
  deriving DecidableEq

/-- A function prototype of the header: name, return type, parameters. -/
structure CFunc where
  fname : String
  ret : CType
  params : List CParam
  deriving DecidableEq

/-- Every function prototype declared in `duckdb.h` (lines 73-97),
transcribed in source order. -/
def headerDecls : List CFunc :=
  [⟨"duckdb_open", .duckdb_state_c,
     [⟨"path", .constCharPtr, false⟩,
      ⟨"out_database", .duckdb_database_ptr, true⟩]⟩,
   ⟨"duckdb_open_ext", .duckdb_state_c,
     [⟨"path", .constCharPtr, false⟩,
      ⟨"out_database", .duckdb_database_ptr, true⟩,
      ⟨"config", .duckdb_config_c, false⟩,
      ⟨"out_error", .charPtrPtr, true⟩]⟩,
   ⟨"duckdb_close", .void,
     [⟨"database", .duckdb_database_ptr, false⟩]⟩,
   ⟨"duckdb_connect", .duckdb_state_c,
     [⟨"database", .duckdb_database_c, false⟩,
      ⟨"out_connection", .duckdb_connection_ptr, true⟩]⟩,
   ⟨"duckdb_disconnect", .void,
     [⟨"connection", .duckdb_connection_ptr, false⟩]⟩,
   ⟨"duckdb_query", .duckdb_state_c,
     [⟨"connection", .duckdb_connection_c, false⟩,
      ⟨"query", .constCharPtr, false⟩,
      ⟨"out_result", .duckdb_result_ptr, true⟩]⟩,
   ⟨"duckdb_destroy_result", .void,
     [⟨"result", .duckdb_result_ptr, false⟩]⟩,
   ⟨"duckdb_column_name", .constCharPtr,
     [⟨"result", .duckdb_result_ptr, false⟩, ⟨"col", .idx_t_c, false⟩]⟩,
   ⟨"duckdb_column_type", .duckdb_type_c,
     [⟨"result", .duckdb_result_ptr, false⟩, ⟨"col", .idx_t_c, false⟩]⟩,
   ⟨"duckdb_column_count", .idx_t_c,
     [⟨"result", .duckdb_result_ptr, false⟩]⟩,
   ⟨"duckdb_row_count", .idx_t_c,
     [⟨"result", .duckdb_result_ptr, false⟩]⟩,
   ⟨"duckdb_value_varchar", .charPtr,
     [⟨"result", .duckdb_result_ptr, false⟩, ⟨"col", .idx_t_c, false⟩,
      ⟨"row", .idx_t_c, false⟩]⟩,
   ⟨"duckdb_value_boolean", .boolC,
     [⟨"result", .duckdb_result_ptr, false⟩, ⟨"col", .idx_t_c, false⟩,
      ⟨"row", .idx_t_c, false⟩]⟩,
   ⟨"duckdb_value_int8", .int8_t,
     [⟨"result", .duckdb_result_ptr, false⟩, ⟨"col", .idx_t_c, false⟩,
      ⟨"row", .idx_t_c, false⟩]⟩,
   ⟨"duckdb_value_int16", .int16_t,
     [⟨"result", .duckdb_result_ptr, false⟩, ⟨"col", .idx_t_c, false⟩,
      ⟨"row", .idx_t_c, false⟩]⟩,
   ⟨"duckdb_value_int32", .int32_t,
     [⟨"result", .duckdb_result_ptr, false⟩, ⟨"col", .idx_t_c, false⟩,
      ⟨"row", .idx_t_c, false⟩]⟩,
   ⟨"duckdb_value_int64", .int64_t,
     [⟨"result", .duckdb_result_ptr, false⟩, ⟨"col", .idx_t_c, false⟩,
      ⟨"row", .idx_t_c, false⟩]⟩,
   ⟨"duckdb_value_float", .floatC,
     [⟨"result", .duckdb_result_ptr, false⟩, ⟨"col", .idx_t_c, false⟩,
      ⟨"row", .idx_t_c, false⟩]⟩,
   ⟨"duckdb_value_double", .doubleC,
     [⟨"result", .duckdb_result_ptr, false⟩, ⟨"col", .idx_t_c, false⟩,
      ⟨"row", .idx_t_c, false⟩]⟩,
   ⟨"duckdb_free", .void,
     [⟨"ptr", .voidPtr, false⟩]⟩]

/-- The names of the header's declared functions, in source order. -/
def boundarySurface : List String := headerDecls.map CFunc.fname

/-- Modelled from the spec: the boundary-surface function list of spec
section 6, item by item in the spec's order, each item rendered as the
header name that realises it: open, open-with-configuration
(`duckdb_open_ext`, the variant taking a `duckdb_config`), close,
connect, disconnect, query, destroy-result, column-name, column-type,
column-count, row-count, the typed value accessors (boolean, 8/16/32/64
bit signed integer, float, double, string = `duckdb_value_varchar`), and
the generic memory-release function `duckdb_free`. -/
def specSurface : List String :=
  ["duckdb_open", "duckdb_open_ext", "duckdb_close", "duckdb_connect",
   "duckdb_disconnect", "duckdb_query", "duckdb_destroy_result",
   "duckdb_column_name", "duckdb_column_type", "duckdb_column_count",
   "duckdb_row_count", "duckdb_value_boolean", "duckdb_value_int8",
   "duckdb_value_int16", "duckdb_value_int32", "duckdb_value_int64",
   "duckdb_value_float", "duckdb_value_double", "duckdb_value_varchar",
   "duckdb_free"]

/-- The return type of a named header function, when declared. -/
def retOf (n : String) : Option CType :=
  (headerDecls.find? (fun d => d.fname = n)).map CFunc.ret

/-- The four header functions that report a status. -/
def statusFunctions : List String :=
  ["duckdb_open", "duckdb_open_ext", "duckdb_connect", "duckdb_query"]

/-- The `idx_t` index type, from `typedef uint64_t idx_t;` in the
header: an unsigned 64-bit integer, so its values are exactly the
naturals below 2^64. -/
def idx_t : Type := Fin (2 ^ 64)

/-- The natural-number value of an `idx_t` index. -/
def idx_t.toNat (i : idx_t) : Nat := Fin.val i

/-! ## Part 2: the minimal engine, modelled from the spec

The repository ships no implementation, so the definitions below follow
the specification's reconstruction (spec sections 2-4 and 7): a columnar
Result Set with per-cell null tracking, typed accessors with bounds and
coercion checks, a minimal literal-`SELECT` execution facade, and a
handle-lifecycle state machine. -/

/-- Modelled from the spec: the error taxonomy of spec section 7
(`IOError`, `StateError`, `QueryError` carrying a message, `RangeError`,
`FormatError`, `OverflowError`). -/
inductive DBError where
  | IOError
  | StateError
  | QueryError (msg : String)
  | RangeError
  | FormatError
  | OverflowError
  deriving DecidableEq

/-- Modelled from the spec: a cell of a Value Store. The spec's
presence bitmap is represented by the dedicated `null` constructor; a
non-null cell carries a typed value (the model covers the integer,
string and boolean kinds; the missing engine's other kinds are out of
scope of the claims). -/
inductive Cell where
  | intVal (v : Int)
  | strVal (s : String)
  | boolVal (b : Bool)
  | null
  deriving DecidableEq

/-- Modelled from the spec: the declared type tag of a cell, using the
header's enumeration. -/
def cellType : Cell → DUCKDB_TYPE
  | .intVal _ => .DUCKDB_TYPE_INTEGER
  | .strVal _ => .DUCKDB_TYPE_VARCHAR
  | .boolVal _ => .DUCKDB_TYPE_BOOLEAN
  | .null => .DUCKDB_TYPE_SQLNULL

/-- Modelled from the spec: one column of a Result Set: its name, its
declared type tag, and its dense cell sequence (Value Store). -/
structure Column where
  cname : String
  ctype : DUCKDB_TYPE
  cells : List Cell
  deriving DecidableEq

/-- Modelled from the spec: a materialized, immutable Result Set: a
sequence of columns plus the uniform row count. -/
structure ResultSet where
  columns : List Column
  nrows : Nat
  deriving DecidableEq

/-- Modelled from the spec: well-formedness of a Result Set: the row
count is uniform across all columns (spec section 3). -/
def WfResult (rs : ResultSet) : Prop :=
  ∀ c ∈ rs.columns, c.cells.length = rs.nrows

instance (rs : ResultSet) : Decidable (WfResult rs) :=
  inferInstanceAs (Decidable (∀ c ∈ rs.columns, c.cells.length = rs.nrows))

/-- Modelled from the spec: `column_count`, O(1) on a live result. -/
def duckdb_column_count (rs : ResultSet) : Nat := rs.columns.length

/-- Modelled from the spec: `row_count`, O(1) on a live result. -/
def duckdb_row_count (rs : ResultSet) : Nat := rs.nrows

/-- Modelled from the spec: `column_name`, failing with `RangeError`
when the column index is out of bounds. -/
def duckdb_column_name (rs : ResultSet) (col : Nat) :
    Except DBError String :=
  match rs.columns[col]? with
  | some c => .ok c.cname
  | none => .error .RangeError

/-- Modelled from the spec: `column_type`, failing with `RangeError`
when the column index is out of bounds. -/
def duckdb_column_type (rs : ResultSet) (col : Nat) :
    Except DBError DUCKDB_TYPE :=
  match rs.columns[col]? with
  | some c => .ok c.ctype
  | none => .error .RangeError

/-- Modelled from the spec: bounds-checked cell lookup shared by all
typed accessors. Either index out of bounds (or a cell missing from a
malformed column) fails with `RangeError`; within bounds the stored
cell is returned, never undefined memory. -/
def getCell (rs : ResultSet) (col row : Nat) : Except DBError Cell :=
  if rs.nrows ≤ row then .error .RangeError
  else match rs.columns[col]? with
    | none => .error .RangeError
    | some c =>
      match c.cells[row]? with
      | none => .error .RangeError
      | some cell => .ok cell

/-- The widths of the signed-integer accessor family declared in the
header (`duckdb_value_int8/16/32/64`). -/
inductive IntWidth where
  | w8
  | w16
  | w32
  | w64
  deriving DecidableEq

/-- Bit count of an accessor width. -/
def IntWidth.bits : IntWidth → Nat
  | .w8 => 8
  | .w16 => 16
  | .w32 => 32
  | .w64 => 64

/-- Whether an integer fits the signed range of the given width. -/
def fitsWidth (w : IntWidth) (v : Int) : Bool :=
  decide (-(2 ^ (w.bits - 1)) ≤ v) && decide (v < 2 ^ (w.bits - 1))

/-- Modelled from the spec: the coercion table of spec section 4.3 for
an integer-typed accessor. Integer values are returned exactly when
they fit the accessor's width and fail with `OverflowError` otherwise
(never silently truncated); strings are parsed, failing with
`FormatError` when unparsable; booleans coerce to 0/1; a null cell
yields the sentinel 0 (the model's documented null convention is the
out-of-band `duckdb_value_is_null` query plus zero/empty sentinels). -/
def coerceInt (w : IntWidth) : Cell → Except DBError Int
  | .intVal v => if fitsWidth w v then .ok v else .error .OverflowError
  | .strVal s =>
    match s.toInt? with
    | some v => if fitsWidth w v then .ok v else .error .OverflowError
    | none => .error .FormatError
  | .boolVal b => .ok (if b then 1 else 0)
  | .null => .ok 0

/-- Modelled from the spec: the generic signed-integer accessor at a
given width; `duckdb_value_int8/16/32/64` are its instances. -/
def duckdb_value_int (w : IntWidth) (rs : ResultSet) (col row : Nat) :
    Except DBError Int :=
  (getCell rs col row).bind (coerceInt w)

/-- Modelled from the spec: the 8-bit signed accessor. -/
def duckdb_value_int8 (rs : ResultSet) (col row : Nat) :
    Except DBError Int :=
  duckdb_value_int .w8 rs col row

/-- Modelled from the spec: the 16-bit signed accessor. -/
def duckdb_value_int16 (rs : ResultSet) (col row : Nat) :
    Except DBError Int :=
  duckdb_value_int .w16 rs col row

/-- Modelled from the spec: the 32-bit signed accessor. -/
def duckdb_value_int32 (rs : ResultSet) (col row : Nat) :
    Except DBError Int :=
  duckdb_value_int .w32 rs col row

/-- Modelled from the spec: the 64-bit signed accessor. -/
def duckdb_value_int64 (rs : ResultSet) (col row : Nat) :
    Except DBError Int :=
  duckdb_value_int .w64 rs col row

/-- Modelled from the spec: canonical string rendering of a cell for
the varchar accessor (numeric values get canonical decimal formatting;
a null cell yields the empty-string sentinel). -/
def cellToString : Cell → String
  | .intVal v => toString v
  | .strVal s => s
  | .boolVal b => if b then "true" else "false"
  | .null => ""

/-- Modelled from the spec: the string (varchar) accessor. -/
def duckdb_value_varchar (rs : ResultSet) (col row : Nat) :
    Except DBError String :=
  (getCell rs col row).map cellToString

/-- Modelled from the spec: the boolean accessor; integer cells coerce
via zero/nonzero, strings fail with `FormatError`, null yields the
`false` sentinel. -/
def duckdb_value_boolean (rs : ResultSet) (col row : Nat) :
    Except DBError Bool :=
  (getCell rs col row).bind fun c =>
    match c with
    | .boolVal b => .ok b
    | .intVal v => .ok (v ≠ 0)
    | .strVal _ => .error .FormatError
    | .null => .ok false

/-- Modelled from the spec: the out-of-band null-presence query, the
model's single documented null-signaling convention. -/
def duckdb_value_is_null (rs : ResultSet) (col row : Nat) :
    Except DBError Bool :=
  (getCell rs col row).map (fun c =>
    match c with
    | .null => true
    | _ => false)

/-- Modelled from the spec: numeric coercion for the float and double
accessors. The returned number is represented exactly as a rational
(IEEE rounding behaviour is not part of the model); integer cells
coerce losslessly, strings parse or fail with `FormatError`, booleans
coerce to 0/1, and a null cell yields the zero sentinel. -/
def coerceFloat : Cell → Except DBError Rat
  | .intVal v => .ok (v : Rat)
  | .strVal s =>
    match s.toInt? with
    | some v => .ok (v : Rat)
    | none => .error .FormatError
  | .boolVal b => .ok (if b then 1 else 0)
  | .null => .ok 0

/-- Modelled from the spec: the float accessor, sharing the
bounds-checked cell lookup of every typed accessor. -/
def duckdb_value_float (rs : ResultSet) (col row : Nat) :
    Except DBError Rat :=
  (getCell rs col row).bind coerceFloat

/-- Modelled from the spec: the double accessor, sharing the
bounds-checked cell lookup of every typed accessor. -/
def duckdb_value_double (rs : ResultSet) (col row : Nat) :
    Except DBError Rat :=
  (getCell rs col row).bind coerceFloat

/-! ### The execution facade: minimal literal-`SELECT` evaluation

Modelled from the spec, section 4.1: `query` parses the text into "a
minimal statement form (at minimum: literal-valued SELECT projections)",
evaluates it, and materializes a Result Set; on parse failure it returns
`QueryError` carrying a message. Character constants are written via
`Char.ofNat` (39 = single quote, 44 = comma, 32 = space, 45 = minus). -/

/-- The single-quote character delimiting string literals. -/
def quoteChar : Char := Char.ofNat 39

/-- The comma character separating projections. -/
def commaChar : Char := Char.ofNat 44

/-- The space character. -/
def spaceChar : Char := Char.ofNat 32

/-- The minus character opening a negative integer literal. -/
def minusChar : Char := Char.ofNat 45

/-- Modelled from the spec: split a projection list on commas. -/
def splitCommas : List Char → List (List Char)
  | [] => [[]]
  | c :: rest =>
    let r := splitCommas rest
    if c = commaChar then [] :: r
    else
      match r with
      | [] => [[c]]
      | x :: xs => (c :: x) :: xs

/-- Strip leading and trailing spaces from a token. -/
def trimChars (cs : List Char) : List Char :=
  ((cs.dropWhile (fun c => c = spaceChar)).reverse.dropWhile
    (fun c => c = spaceChar)).reverse

/-- Decimal value of a nonempty digit string, `none` on any
non-digit. -/
def digitsVal : List Char → Option Nat
  | [] => none
  | cs =>
    cs.foldl
      (fun acc c =>
        match acc with
        | none => none
        | some n => if c.isDigit then some (n * 10 + (c.toNat - 48)) else none)
      (some 0)

/-- Parse an optionally negated decimal integer literal. -/
def parseIntChars (cs : List Char) : Option Int :=
  match cs with
  | c :: rest =>
    if c = minusChar then (digitsVal rest).map (fun n => -(n : Int))
    else (digitsVal cs).map Int.ofNat
  | [] => none

/-- Modelled from the spec: parse one projection token into a cell:
`NULL`, a single-quoted string literal, or a decimal integer literal;
anything else is a parse failure. -/
def parseLiteral (cs : List Char) : Option Cell :=
  let t := trimChars cs
  if t = "NULL".toList then some .null
  else if t.head? = some quoteChar ∧ t.getLast? = some quoteChar ∧
      2 ≤ t.length then
    some (.strVal (String.mk ((t.drop 1).dropLast)))
  else (parseIntChars t).map Cell.intVal

/-- Modelled from the spec: parse a literal-valued `SELECT` projection
list, returning for each projection its source text (used as the column
name) and its literal cell. -/
def parseSelect (q : String) : Option (List (String × Cell)) :=
  let cs := q.toList
  let kw := "SELECT ".toList
  if kw.isPrefixOf cs then
    (splitCommas (cs.drop kw.length)).mapM
      (fun tok =>
        (parseLiteral tok).map (fun c => (String.mk (trimChars tok), c)))
  else none

/-- Modelled from the spec: evaluate a query string, materializing a
one-row Result Set whose columns hold the projected literals, or a
`QueryError` on parse failure. -/
def runSelect (q : String) : Except DBError ResultSet :=
  match parseSelect q with
  | some items =>
    .ok { columns :=
            items.map (fun it =>
              { cname := it.1, ctype := cellType it.2, cells := [it.2] }),
          nrows := 1 }
  | none => .error (.QueryError ("parse error: " ++ q))

/-! ### The handle-lifecycle state machine

Modelled from the spec, sections 3-5: database and connection handles
are live flags in an engine-owned table; a Result Set handle is an index
into a table of materialized results; destruction clears the entry
(spec section 9's handle-table design), so every operation can detect a
released handle instead of corrupting memory. -/

/-- Modelled from the spec: the process-wide engine state: the handle
tables for databases, connections (each flag is the liveness of the
handle), and materialized Result Sets (`none` once destroyed). -/
structure EngineState where
  dbs : List Bool
  conns : List Bool
  results : List (Option ResultSet)
  deriving DecidableEq

/-- Modelled from the spec: the operations a caller can issue against
the engine, mirroring the header's function surface. -/
inductive Op where
  | openDb
  | closeDb (h : Nat)
  | connectDb (db : Nat)
  | disconnect (h : Nat)
  | runQuery (conn : Nat) (q : String)
  | destroyResult (h : Nat)
  | columnName (h i : Nat)
  | columnType (h i : Nat)
  | columnCount (h : Nat)
  | rowCount (h : Nat)
  | valueInt (w : IntWidth) (h c r : Nat)
  | valueVarchar (h c r : Nat)
  | valueBoolean (h c r : Nat)
  | valueFloat (h c r : Nat)
  | valueDouble (h c r : Nat)
  | valueIsNull (h c r : Nat)
  deriving DecidableEq

/-- Modelled from the spec: the state transition of each operation.
Read-only operations on results leave the state unchanged; `openDb` and
`connectDb` allocate a fresh live handle; `closeDb`, `disconnect` and
`destroyResult` clear the handle's table entry, so a second destruction
of the same handle finds it already cleared and is a defined no-op (the
policy the spec asks to be fixed); `runQuery` on a live connection
appends the materialized result. -/
def step (σ : EngineState) : Op → EngineState
  | .openDb => { σ with dbs := σ.dbs ++ [true] }
  | .closeDb h => { σ with dbs := σ.dbs.set h false }
  | .connectDb db =>
    if (σ.dbs[db]?).getD false then { σ with conns := σ.conns ++ [true] }
    else σ
  | .disconnect h => { σ with conns := σ.conns.set h false }
  | .runQuery conn q =>
    if (σ.conns[conn]?).getD false then
      match runSelect q with
      | .ok rs => { σ with results := σ.results ++ [some rs] }
      | .error _ => σ
    else σ
  | .destroyResult h => { σ with results := σ.results.set h none }
  | .columnName _ _ => σ
  | .columnType _ _ => σ
  | .columnCount _ => σ
  | .rowCount _ => σ
  | .valueInt _ _ _ _ => σ
  | .valueVarchar _ _ _ => σ
  | .valueBoolean _ _ _ => σ
  | .valueFloat _ _ _ => σ
  | .valueDouble _ _ _ => σ
  | .valueIsNull _ _ _ => σ

/-- Run a sequence of operations from a state. -/
def run (σ : EngineState) (ops : List Op) : EngineState :=
  ops.foldl step σ

/-- Modelled from the spec: `query` against a connection handle: a dead
or unknown handle fails with `StateError` (the guarding the spec
mandates); a live one evaluates the text. On error no Result Set is
produced. -/
def duckdb_query (σ : EngineState) (conn : Nat) (q : String) :
    Except DBError ResultSet :=
  if (σ.conns[conn]?).getD false then runSelect q
  else .error .StateError

/-- Modelled from the spec: the round-trip test query of spec section 8,
`SELECT 1, (quote)a(quote), NULL`, built with `quoteChar` for the two
single quotes around `a`. -/
def selectQuery : String :=
  "SELECT 1, " ++ String.mk [quoteChar] ++ "a" ++ String.mk [quoteChar] ++
    ", NULL"

/-- Modelled from the spec: the enumerators realising each category the
spec's type-enumeration sentence names: boolean; the signed integer
family 8/16/32/64/128 bit (TINYINT, SMALLINT, INTEGER, BIGINT, HUGEINT);
the unsigned family 8/16/32/64/128 bit (UTINYINT, USMALLINT, UINTEGER,
UBIGINT, UHUGEINT); floating point (FLOAT, DOUBLE); temporal: date,
time, timestamp variants with and without timezone at multiple
precisions (DATE, TIME, TIME_TZ, TIMESTAMP, TIMESTAMP_S, TIMESTAMP_MS,
TIMESTAMP_NS, TIMESTAMP_TZ); string (VARCHAR); BLOB; DECIMAL; ENUM; and
the nested composites LIST, STRUCT, MAP, UNION, ARRAY. -/
def specNamedTypes : List DUCKDB_TYPE :=
  [.DUCKDB_TYPE_BOOLEAN,
   .DUCKDB_TYPE_TINYINT, .DUCKDB_TYPE_SMALLINT, .DUCKDB_TYPE_INTEGER,
   .DUCKDB_TYPE_BIGINT, .DUCKDB_TYPE_HUGEINT,
   .DUCKDB_TYPE_UTINYINT, .DUCKDB_TYPE_USMALLINT, .DUCKDB_TYPE_UINTEGER,
   .DUCKDB_TYPE_UBIGINT, .DUCKDB_TYPE_UHUGEINT,
   .DUCKDB_TYPE_FLOAT, .DUCKDB_TYPE_DOUBLE,
   .DUCKDB_TYPE_DATE, .DUCKDB_TYPE_TIME, .DUCKDB_TYPE_TIME_TZ,
   .DUCKDB_TYPE_TIMESTAMP, .DUCKDB_TYPE_TIMESTAMP_S,
   .DUCKDB_TYPE_TIMESTAMP_MS, .DUCKDB_TYPE_TIMESTAMP_NS,
   .DUCKDB_TYPE_TIMESTAMP_TZ,
   .DUCKDB_TYPE_VARCHAR, .DUCKDB_TYPE_BLOB, .DUCKDB_TYPE_DECIMAL,
   .DUCKDB_TYPE_ENUM,
   .DUCKDB_TYPE_LIST, .DUCKDB_TYPE_STRUCT, .DUCKDB_TYPE_MAP,
   .DUCKDB_TYPE_UNION, .DUCKDB_TYPE_ARRAY]

/-- A concrete one-column, one-row Result Set holding the stored
integer 300 (the spec's own narrowing example), used by witnesses. -/
def demoResult : ResultSet :=
  { columns := [{ cname := "c0", ctype := .DUCKDB_TYPE_INTEGER,
                  cells := [.intVal 300] }],
    nrows := 1 }

/-! ## Shared helper lemmas -/

/-- An out-of-bounds column or row index makes the shared cell lookup
fail with `RangeError`. -/
theorem getCell_oob (rs : ResultSet) (c r : Nat)
    (h : duckdb_column_count rs ≤ c ∨ duckdb_row_count rs ≤ r) :
    getCell rs c r = .error .RangeError := by
  unfold getCell
  rcases h with hc | hr
  · rcases Nat.lt_or_ge r rs.nrows with hr | hr
    · rw [if_neg (Nat.not_le.mpr hr), List.getElem?_eq_none hc]
    · rw [if_pos (show rs.nrows ≤ r from hr)]
  · rw [if_pos (show rs.nrows ≤ r from hr)]

/-- Within bounds of a well-formed result, the shared cell lookup
succeeds. -/
theorem getCell_inbounds (rs : ResultSet) (hwf : WfResult rs) (c r : Nat)
    (hc : c < duckdb_column_count rs) (hr : r < duckdb_row_count rs) :
    ∃ cell, getCell rs c r = .ok cell := by
  have hc2 : c < rs.columns.length := hc
  have hlen : (rs.columns[c]).cells.length = rs.nrows :=
    hwf _ (List.getElem_mem hc2)
  have hrl : r < (rs.columns[c]).cells.length := by
    rw [hlen]
    exact hr
  refine ⟨(rs.columns[c]).cells[r], ?_⟩
  unfold getCell
  rw [if_neg (Nat.not_le.mpr (show r < rs.nrows from hr))]
  rw [List.getElem?_eq_getElem hc2]
  dsimp only
  rw [List.getElem?_eq_getElem hrl]

/-- Integer coercion never reports an out-of-bounds error: its only
failure modes are `FormatError` and `OverflowError`. -/
theorem coerceInt_ne_rangeError (w : IntWidth) (cell : Cell) :
    coerceInt w cell ≠ .error .RangeError := by
  cases cell with
  | intVal v =>
    simp only [coerceInt]
    split <;> simp
  | strVal s =>
    cases hs : s.toInt? with
    | none => simp [coerceInt, hs]
    | some v =>
      simp only [coerceInt, hs]
      split <;> simp
  | boolVal b => simp [coerceInt]
  | null => simp [coerceInt]

/-! ## The claims -/

/-- C1: the boundary surface declared by the header consists exactly of
the functions the spec's section-6 list names: open,
open-with-configuration, close, connect, disconnect, query,
destroy-result, column-name, column-type, column-count, row-count, the
typed value accessors for boolean, 8/16/32/64-bit signed integers,
float, double and string, and the generic memory-release function:
the header's declared names are a permutation of the spec's list. -/
theorem c1_boundary_surface_exact : boundarySurface.Perm specSurface := by
  decide

/-- C2: the type enumeration is a fixed set (every value is one of the
transcribed enumerators) of pairwise-distinct integer codes, and it
includes enumerators for boolean, the signed and unsigned integer
families from 8 up to 128 bits, floating point, the temporal types at
multiple precisions with and without timezone, string, blob, decimal,
enum, and the nested composites list, struct, map, union and array. -/
theorem c2_type_enumeration_distinct_and_complete :
    (∀ t : DUCKDB_TYPE, t ∈ DUCKDB_TYPE_all) ∧
    (DUCKDB_TYPE_all.map DUCKDB_TYPE.code).Nodup ∧
    (specNamedTypes.all (fun t => DUCKDB_TYPE_all.contains t) = true) := by
  refine ⟨fun t => ?_, by decide, by decide⟩
  cases t <;> decide

/-- C3: every status-reporting function of the header (exactly `open`,
`open_ext`, `connect` and `query`) returns the two-value
success/error enumeration `duckdb_state` (whose only values are
`DuckDBSuccess`, code 0, and `DuckDBError`, code 1), and each of these
functions delivers its produced handle or result through an
out-parameter. -/
theorem c3_status_code_convention :
    (headerDecls.all (fun d =>
        decide (d.ret = CType.duckdb_state_c) ==
          statusFunctions.contains d.fname) = true) ∧
    (∀ s : duckdb_state, s = .DuckDBSuccess ∨ s = .DuckDBError) ∧
    duckdb_state.code .DuckDBSuccess = 0 ∧
    duckdb_state.code .DuckDBError = 1 ∧
    (statusFunctions.all (fun n =>
        (headerDecls.find? (fun d => d.fname = n)).any
          (fun d => d.params.any (fun p => p.isOut)) ) = true) := by
  refine ⟨by decide, fun s => ?_, rfl, rfl, by decide⟩
  cases s
  · exact Or.inl rfl
  · exact Or.inr rfl

/-- C4: on a live connection, the spec's round-trip query
`SELECT 1, (quote)a(quote), NULL` succeeds and the materialized Result
Set has column_count 3, row_count 1, 32-bit integer value 1 at
(0, 0), varchar value "a" at (1, 0), and a true null indicator at
(2, 0). -/
theorem c4_round_trip (σ : EngineState) (conn : Nat)
    (hlive : (σ.conns[conn]?).getD false = true) :
    (duckdb_query σ conn selectQuery).map duckdb_column_count = .ok 3 ∧
    (duckdb_query σ conn selectQuery).map duckdb_row_count = .ok 1 ∧
    (duckdb_query σ conn selectQuery).bind
      (fun rs => duckdb_value_int32 rs 0 0) = .ok 1 ∧
    (duckdb_query σ conn selectQuery).bind
      (fun rs => duckdb_value_varchar rs 1 0) = .ok "a" ∧
    (duckdb_query σ conn selectQuery).bind
      (fun rs => duckdb_value_is_null rs 2 0) = .ok true := by
  have hq : duckdb_query σ conn selectQuery = runSelect selectQuery := by
    unfold duckdb_query
    rw [hlive]
    rfl
  rw [hq]
  exact ⟨rfl, rfl, rfl, rfl, rfl⟩

/-- C4 witness: a concrete engine state with one live connection. -/
theorem c4_round_trip_witness :
    (duckdb_query ⟨[true], [true], []⟩ 0 selectQuery).map
      duckdb_column_count = .ok 3 := by
  exact (c4_round_trip ⟨[true], [true], []⟩ 0 rfl).1

/-- C5: on any Result Set, `column_name` and `column_type` with a
column index at or past column_count, and every one of the eight typed
accessors of the header's surface (string, boolean, the four signed
integer widths, float, double — and the null-presence query) with a
column or row index out of bounds, fail with `RangeError`; being total
Lean functions they return this error value, never undefined memory. -/
theorem c5_out_of_bounds_is_range_error (rs : ResultSet) (c r : Nat)
    (h : duckdb_column_count rs ≤ c ∨ duckdb_row_count rs ≤ r) :
    (duckdb_column_count rs ≤ c →
      duckdb_column_name rs c = .error .RangeError ∧
      duckdb_column_type rs c = .error .RangeError) ∧
    duckdb_value_int8 rs c r = .error .RangeError ∧
    duckdb_value_int16 rs c r = .error .RangeError ∧
    duckdb_value_int32 rs c r = .error .RangeError ∧
    duckdb_value_int64 rs c r = .error .RangeError ∧
    duckdb_value_varchar rs c r = .error .RangeError ∧
    duckdb_value_boolean rs c r = .error .RangeError ∧
    duckdb_value_float rs c r = .error .RangeError ∧
    duckdb_value_double rs c r = .error .RangeError ∧
    duckdb_value_is_null rs c r = .error .RangeError := by
  have hcell := getCell_oob rs c r h
  refine ⟨fun hc => ?_, ?_, ?_, ?_, ?_, ?_, ?_, ?_, ?_, ?_⟩
  · constructor
    · unfold duckdb_column_name
      rw [List.getElem?_eq_none hc]
    · unfold duckdb_column_type
      rw [List.getElem?_eq_none hc]
  all_goals
    simp only [duckdb_value_int8, duckdb_value_int16, duckdb_value_int32,
      duckdb_value_int64, duckdb_value_int, duckdb_value_varchar,
      duckdb_value_boolean, duckdb_value_float, duckdb_value_double,
      duckdb_value_is_null, hcell]
    rfl

/-- C5 witness: column index 5 on the one-column demo result. -/
theorem c5_out_of_bounds_is_range_error_witness :
    duckdb_column_name demoResult 5 = .error .RangeError := by
  exact ((c5_out_of_bounds_is_range_error demoResult 5 0
    (Or.inl (by decide))).1 (by decide)).1

/-- One engine step either leaves a result-table entry intact or clears
it to `none`; it never replaces a materialized Result Set by a
different one. -/
theorem step_result_entry (σ : EngineState) (op : Op) (h : Nat)
    (v : Option ResultSet) (hh : σ.results[h]? = some v) :
    (step σ op).results[h]? = some v ∨
      (step σ op).results[h]? = some none := by
  have hlt : h < σ.results.length := (List.getElem?_eq_some_iff.mp hh).1
  cases op with
  | openDb => exact Or.inl hh
  | closeDb k => exact Or.inl hh
  | connectDb db =>
    simp only [step]
    split <;> exact Or.inl hh
  | disconnect k => exact Or.inl hh
  | runQuery conn q =>
    simp only [step]
    split
    · split
      · exact Or.inl ((List.getElem?_append_left hlt).trans hh)
      · exact Or.inl hh
    · exact Or.inl hh
  | destroyResult k =>
    simp only [step]
    by_cases hk : k = h
    · subst hk
      exact Or.inr (List.getElem?_set_self hlt)
    · refine Or.inl ?_
      show (σ.results.set k none)[h]? = some v
      rw [List.getElem?_set_ne hk]
      exact hh
  | columnName k i => exact Or.inl hh
  | columnType k i => exact Or.inl hh
  | columnCount k => exact Or.inl hh
  | rowCount k => exact Or.inl hh
  | valueInt w k cc rr => exact Or.inl hh
  | valueVarchar k cc rr => exact Or.inl hh
  | valueBoolean k cc rr => exact Or.inl hh
  | valueFloat k cc rr => exact Or.inl hh
  | valueDouble k cc rr => exact Or.inl hh
  | valueIsNull k cc rr => exact Or.inl hh

/-- Over any operation sequence, a result-table entry is either still
the originally materialized Result Set or has been cleared. -/
theorem run_result_entry (ops : List Op) (σ : EngineState) (h : Nat)
    (v : Option ResultSet) (hh : σ.results[h]? = some v) :
    (run σ ops).results[h]? = some v ∨
      (run σ ops).results[h]? = some none := by
  induction ops generalizing σ v with
  | nil => exact Or.inl hh
  | cons op ops ih =>
    show (run (step σ op) ops).results[h]? = some v ∨ _
    rcases step_result_entry σ op h v hh with h1 | h1
    · exact ih (step σ op) v h1
    · rcases ih (step σ op) none h1 with h2 | h2
      · exact Or.inr h2
      · exact Or.inr h2

/-- C6: `row_count` and `column_count` of a live Result Set are stable
over its whole lifetime: if a result handle still holds a materialized
Result Set after any sequence of engine operations, it is the very
Result Set materialized originally, so both counts are unchanged. -/
theorem c6_counts_stable (σ : EngineState) (ops : List Op) (h : Nat)
    (rs rs2 : ResultSet)
    (h1 : σ.results[h]? = some (some rs))
    (h2 : (run σ ops).results[h]? = some (some rs2)) :
    rs2 = rs ∧
    duckdb_column_count rs2 = duckdb_column_count rs ∧
    duckdb_row_count rs2 = duckdb_row_count rs := by
  rcases run_result_entry ops σ h (some rs) h1 with hv | hv
  · have heq : some (some rs) = some (some rs2) := hv.symm.trans h2
    have heq2 : rs = rs2 := Option.some.inj (Option.some.inj heq)
    subst heq2
    exact ⟨rfl, rfl, rfl⟩
  · have heq : some (none : Option ResultSet) = some (some rs2) :=
      hv.symm.trans h2
    exact Option.noConfusion (Option.some.inj heq)

/-- C6 witness: a concrete state holding one result, run through a read
and an unrelated destroy. -/
theorem c6_counts_stable_witness : demoResult = demoResult := by
  exact (c6_counts_stable ⟨[], [], [some demoResult]⟩
    [Op.columnCount 0, Op.destroyResult 1] 0 demoResult demoResult
    rfl rfl).1

/-- C7: a stored integer value accessed through an integer accessor is
returned exactly when it fits the accessor's width, fails with
`OverflowError` (never silent truncation) when it does not, and
fitting is monotone in the width, so access in the widening direction
is always lossless. -/
theorem c7_narrowing_overflow (rs : ResultSet) (c r : Nat) (v : Int)
    (w : IntWidth) (hcell : getCell rs c r = .ok (.intVal v)) :
    (fitsWidth w v = true → duckdb_value_int w rs c r = .ok v) ∧
    (fitsWidth w v = false →
      duckdb_value_int w rs c r = .error .OverflowError) ∧
    (∀ w2 : IntWidth, w.bits ≤ w2.bits → fitsWidth w v = true →
      fitsWidth w2 v = true) := by
  refine ⟨fun hfit => ?_, fun hnofit => ?_, fun w2 hb hfit => ?_⟩
  · unfold duckdb_value_int
    rw [hcell]
    show (if fitsWidth w v = true then (Except.ok v : Except DBError Int)
      else .error .OverflowError) = .ok v
    rw [if_pos hfit]
  · unfold duckdb_value_int
    rw [hcell]
    show (if fitsWidth w v = true then (Except.ok v : Except DBError Int)
      else .error .OverflowError) = .error .OverflowError
    rw [if_neg (by simp [hnofit])]
  · revert hb hfit
    cases w <;> cases w2 <;>
      simp only [fitsWidth, IntWidth.bits, Bool.and_eq_true,
        decide_eq_true_eq] <;>
      intro hb hfit <;>
      norm_num at hfit ⊢ <;>
      omega

/-- C7 witness: the spec's own example, an 8-bit accessor on a stored
value of 300. -/
theorem c7_narrowing_overflow_witness :
    duckdb_value_int8 demoResult 0 0 = .error .OverflowError := by
  exact (c7_narrowing_overflow demoResult 0 0 300 .w8 rfl).2.1 rfl

/-- C8: each destruction operation (close, disconnect, destroy-result)
applied twice to the same handle leaves the engine in exactly the state
one application leaves it in: the model's fixed double-destroy policy
is the defined no-op, and being a pure function of the state it holds
identically on every run. -/
theorem c8_double_destroy_fixed_policy (σ : EngineState) (h : Nat) :
    step (step σ (.closeDb h)) (.closeDb h) = step σ (.closeDb h) ∧
    step (step σ (.disconnect h)) (.disconnect h) =
      step σ (.disconnect h) ∧
    step (step σ (.destroyResult h)) (.destroyResult h) =
      step σ (.destroyResult h) := by
  refine ⟨?_, ?_, ?_⟩ <;> simp [step, List.set_set]

/-- C9: the header declares `duckdb_close`, `duckdb_disconnect` and
`duckdb_destroy_result` with return type `void`, so their return value
can carry no error status. -/
theorem c9_destructors_return_void :
    retOf "duckdb_close" = some CType.void ∧
    retOf "duckdb_disconnect" = some CType.void ∧
    retOf "duckdb_destroy_result" = some CType.void := by
  exact ⟨rfl, rfl, rfl⟩

/-- C10: every column and row index parameter in the header (each
parameter named `col` or `row`) has type `idx_t`, an unsigned 64-bit
integer whose representable values are exactly the naturals below
2^64, so no negative index exists at the interface; and in the model
an accessor reports `RangeError` exactly when an index is at or past
the corresponding count. -/
theorem c10_idx_t_unsigned_indexing (rs : ResultSet) (hwf : WfResult rs)
    (c r : Nat) (w : IntWidth) :
    (headerDecls.all (fun d => d.params.all (fun p =>
        !(["col", "row"].contains p.pname) ||
          decide (p.ptype = CType.idx_t_c))) = true) ∧
    (∀ i : idx_t, (0 : Int) ≤ (idx_t.toNat i : Int) ∧
      (idx_t.toNat i : Int) < 2 ^ 64) ∧
    (duckdb_column_name rs c = .error .RangeError ↔
      duckdb_column_count rs ≤ c) ∧
    (duckdb_column_type rs c = .error .RangeError ↔
      duckdb_column_count rs ≤ c) ∧
    (duckdb_value_int w rs c r = .error .RangeError ↔
      (duckdb_column_count rs ≤ c ∨ duckdb_row_count rs ≤ r)) ∧
    (duckdb_value_varchar rs c r = .error .RangeError ↔
      (duckdb_column_count rs ≤ c ∨ duckdb_row_count rs ≤ r)) := by
  refine ⟨by decide, fun i => ⟨Int.ofNat_nonneg _, ?_⟩, ?_, ?_, ?_, ?_⟩
  · exact_mod_cast Fin.isLt i
  · constructor
    · intro herr
      by_contra hcon
      have hc : c < rs.columns.length := Nat.not_le.mp hcon
      unfold duckdb_column_name at herr
      rw [List.getElem?_eq_getElem hc] at herr
      exact Except.noConfusion herr
    · intro hle
      unfold duckdb_column_name
      rw [List.getElem?_eq_none hle]
  · constructor
    · intro herr
      by_contra hcon
      have hc : c < rs.columns.length := Nat.not_le.mp hcon
      unfold duckdb_column_type at herr
      rw [List.getElem?_eq_getElem hc] at herr
      exact Except.noConfusion herr
    · intro hle
      unfold duckdb_column_type
      rw [List.getElem?_eq_none hle]
  · constructor
    · intro herr
      by_contra hcon
      rw [not_or] at hcon
      obtain ⟨cell, hcell⟩ := getCell_inbounds rs hwf c r
        (Nat.not_le.mp hcon.1) (Nat.not_le.mp hcon.2)
      unfold duckdb_value_int at herr
      rw [hcell] at herr
      exact coerceInt_ne_rangeError w cell herr
    · intro hoob
      unfold duckdb_value_int
      rw [getCell_oob rs c r hoob]
      rfl
  · constructor
    · intro herr
      by_contra hcon
      rw [not_or] at hcon
      obtain ⟨cell, hcell⟩ := getCell_inbounds rs hwf c r
        (Nat.not_le.mp hcon.1) (Nat.not_le.mp hcon.2)
      unfold duckdb_value_varchar at herr
      rw [hcell] at herr
      exact Except.noConfusion herr
    · intro hoob
      unfold duckdb_value_varchar
      rw [getCell_oob rs c r hoob]
      rfl

/-- C10 witness: the varchar accessor on the demo result at row 5. -/
theorem c10_idx_t_unsigned_indexing_witness :
    duckdb_value_varchar demoResult 0 5 = .error .RangeError ↔
      (duckdb_column_count demoResult ≤ 0 ∨
        duckdb_row_count demoResult ≤ 5) := by
  exact (c10_idx_t_unsigned_indexing demoResult (by decide) 0 5
    .w8).2.2.2.2.2

end Pducky
